import Mathlib

/-!
Verification of the Flipper Zero serial protocol plugin
(`src/pwnzero/PwnZero.py`): a shallow embedding of its enumerations,
byte validation, string conversion, frame construction and the public
`set_*` operations, followed by theorems settling the specification's
claims.
-/

namespace PwnZero

/-- Embeds `PwnZeroParam`: the parameter identifiers sent to the Flipper. -/
inductive PwnZeroParam
  | FACE
  | NAME
  | CHANNEL
  | APS
  | UPTIME
  | FRIEND
  | MODE
  | HANDSHAKES
  | MESSAGE
deriving DecidableEq, Fintype

/-- The integer value of each parameter identifier, as in the source enum. -/
def PwnZeroParam.value : PwnZeroParam → Int
  | .FACE => 4
  | .NAME => 5
  | .CHANNEL => 6
  | .APS => 7
  | .UPTIME => 8
  | .FRIEND => 9
  | .MODE => 10
  | .HANDSHAKES => 11
  | .MESSAGE => 12

/-- Embeds `PwnMode`: the operating modes. -/
inductive PwnMode
  | MANU
  | AUTO
  | AI
deriving DecidableEq, Fintype

/-- The integer value of each mode, as in the source enum. -/
def PwnMode.value : PwnMode → Int
  | .MANU => 4
  | .AUTO => 5
  | .AI => 6

/-- Embeds `PwnFace`: the display faces. -/
inductive PwnFace
  | NO_FACE
  | DEFAULT_FACE
  | LOOK_R
  | LOOK_L
  | LOOK_R_HAPPY
  | LOOK_L_HAPPY
  | SLEEP
  | SLEEP2
  | AWAKE
  | BORED
  | INTENSE
  | COOL
  | HAPPY
  | GRATEFUL
  | EXCITED
  | MOTIVATED
  | DEMOTIVATED
  | SMART
  | LONELY
  | SAD
  | ANGRY
  | FRIEND
  | BROKEN
  | DEBUG
  | UPLOAD
  | UPLOAD1
  | UPLOAD2
deriving DecidableEq, Fintype

/-- The integer value of each face, as in the source enum. -/
def PwnFace.value : PwnFace → Int
  | .NO_FACE => 4
  | .DEFAULT_FACE => 5
  | .LOOK_R => 6
  | .LOOK_L => 7
  | .LOOK_R_HAPPY => 8
  | .LOOK_L_HAPPY => 9
  | .SLEEP => 10
  | .SLEEP2 => 11
  | .AWAKE => 12
  | .BORED => 13
  | .INTENSE => 14
  | .COOL => 15
  | .HAPPY => 16
  | .GRATEFUL => 17
  | .EXCITED => 18
  | .MOTIVATED => 19
  | .DEMOTIVATED => 20
  | .SMART => 21
  | .LONELY => 22
  | .SAD => 23
  | .ANGRY => 24
  | .FRIEND => 25
  | .BROKEN => 26
  | .DEBUG => 27
  | .UPLOAD => 28
  | .UPLOAD1 => 29
  | .UPLOAD2 => 30

/-- `PROTOCOL_START = 0x02` from the source. -/
def PROTOCOL_START : Int := 0x02

/-- `PROTOCOL_END = 0x03` from the source. -/
def PROTOCOL_END : Int := 0x03

/-- Embeds `_is_byte`: `0 <= i < 256` on a Python integer. -/
def is_byte (i : Int) : Bool :=
  decide (0 ≤ i) && decide (i < 256)

/-- Embeds `_str_to_bytes`: the loop appending `ord(c)` for each character
of `s` to an initially empty list. -/
def str_to_bytes (s : String) : List Int :=
  s.data.foldl (fun retVal c => retVal ++ [Int.ofNat c.toNat]) []

/-- Errors the underlying pyserial `write` can raise: an I/O error on the
device, or the port-not-open error raised when writing after `close`. -/
inductive SerialError
  | ioError
  | portNotOpen
deriving DecidableEq

/-- The serial connection as the plugin observes it: the transport's
report for a written byte sequence (a count, or a raised error), together
with the log of byte sequences actually transmitted so far. -/
structure Serial where
  reportFn : List Int → Except SerialError Nat
  writtenLog : List (List Int)

/-- `write` on the serial connection: on success the byte sequence is
transmitted (appended to the log) and the reported count is returned; a
raised error transmits nothing. -/
def Serial.write (self : Serial) (d : List Int) : Except SerialError (Nat × Serial) :=
  match self.reportFn d with
  | .ok n => .ok (n, { self with writtenLog := self.writtenLog ++ [d] })
  | .error e => .error e

/-- The `data` list built by `_send_data`:
`[PROTOCOL_START]`, then `param`, then each arg, then `PROTOCOL_END`. -/
def frameData (param : Int) (args : List Int) : List Int :=
  [PROTOCOL_START, param] ++ args ++ [PROTOCOL_END]

/-- Embeds `_send_data`: validate the param byte and every arg byte
(returning `False` without writing if any is invalid), build the frame,
write it, and return whether the reported count equals the frame length.
An error raised by the underlying `write` propagates uncaught. -/
def send_data (self : Serial) (param : Int) (args : List Int) :
    Except SerialError (Bool × Serial) :=
  if !(is_byte param) then .ok (false, self)
  else if !(args.all fun i => is_byte i) then .ok (false, self)
  else
    match self.write (frameData param args) with
    | .ok (written, conn) => .ok (written == (frameData param args).length, conn)
    | .error e => .error e

/-- Embeds `set_face`. -/
def set_face (self : Serial) (face : PwnFace) : Except SerialError (Bool × Serial) :=
  send_data self PwnZeroParam.FACE.value [face.value]

/-- Embeds `set_name`. -/
def set_name (self : Serial) (name : String) : Except SerialError (Bool × Serial) :=
  send_data self PwnZeroParam.NAME.value (str_to_bytes name)

/-- Embeds `set_channel`. -/
def set_channel (self : Serial) (channelInfo : String) : Except SerialError (Bool × Serial) :=
  send_data self PwnZeroParam.CHANNEL.value (str_to_bytes channelInfo)

/-- Embeds `set_aps`. -/
def set_aps (self : Serial) (apsInfo : String) : Except SerialError (Bool × Serial) :=
  send_data self PwnZeroParam.APS.value (str_to_bytes apsInfo)

/-- Embeds `set_uptime`. -/
def set_uptime (self : Serial) (uptimeInfo : String) : Except SerialError (Bool × Serial) :=
  send_data self PwnZeroParam.UPTIME.value (str_to_bytes uptimeInfo)

/-- Embeds `set_friend`: unconditionally returns `False`, touching nothing. -/
def set_friend (self : Serial) : Except SerialError (Bool × Serial) :=
  .ok (false, self)

/-- Embeds `set_mode`. -/
def set_mode (self : Serial) (mode : PwnMode) : Except SerialError (Bool × Serial) :=
  send_data self PwnZeroParam.MODE.value [mode.value]

/-- Embeds `set_handshakes`. -/
def set_handshakes (self : Serial) (handshakesInfo : String) : Except SerialError (Bool × Serial) :=
  send_data self PwnZeroParam.HANDSHAKES.value (str_to_bytes handshakesInfo)

/-- Embeds `set_message`. -/
def set_message (self : Serial) (message : String) : Except SerialError (Bool × Serial) :=
  send_data self PwnZeroParam.MESSAGE.value (str_to_bytes message)

/-- Observation: the boolean outcome of a call, when the call returned a
value rather than raising. -/
def callResult (r : Except SerialError (Bool × Serial)) : Option Bool :=
  match r with
  | .ok (b, _) => some b
  | .error _ => none

/-- Observation: the transmitted-frames log after a call, when the call
returned a value rather than raising. -/
def callLog (r : Except SerialError (Bool × Serial)) : Option (List (List Int)) :=
  match r with
  | .ok (_, conn) => some conn.writtenLog
  | .error _ => none

/-- `_send_data` with its param validity check removed, for comparing
against the real `send_data` on enum-supplied params. -/
def send_data_uncheckedParam (self : Serial) (param : Int) (args : List Int) :
    Except SerialError (Bool × Serial) :=
  if !(args.all fun i => is_byte i) then .ok (false, self)
  else
    match self.write (frameData param args) with
    | .ok (written, conn) => .ok (written == (frameData param args).length, conn)
    | .error e => .error e

/-- The error `__init__` raises when the serial device cannot be opened:
a `RuntimeError` carrying the formatted message. -/
inductive InitError
  | runtimeError (msg : String)
deriving DecidableEq

/-- The constructed plugin object: the stored port, baud rate, and open
serial connection. -/
structure PwnZeroPlugin where
  port : String
  baud : Int
  serialConn : Serial

/-- Embeds `PwnZero.__init__`: attempt to open the serial device via the
supplied opener (`serial.Serial`, external to this repository); on failure
re-raise as `RuntimeError` wrapping the underlying error message, with no
retry and no constructed instance. -/
def pwnZero_init (openSerial : String → Int → Except String Serial)
    (port : String) (baud : Int) : Except InitError PwnZeroPlugin :=
  match openSerial port baud with
  | .ok conn => .ok ⟨port, baud, conn⟩
  | .error e =>
      .error (.runtimeError
        ("Cannot bind to port " ++ port ++ " with baud " ++ toString baud ++ ": " ++ e))

/-! ## Helper lemmas -/

/-- Folding an append of singletons over a list is a map. -/
lemma foldl_append_singleton (l : List Char) (a : List Int) :
    l.foldl (fun retVal c => retVal ++ [Int.ofNat c.toNat]) a =
      a ++ l.map (fun c => Int.ofNat c.toNat) := by
  induction l generalizing a with
  | nil => simp
  | cons c l ih => rw [List.foldl_cons, ih]; simp

/-- A frame is three bytes longer than its payload. -/
lemma frameData_length (p : Int) (args : List Int) :
    (frameData p args).length = args.length + 3 := by
  simp [frameData]

/-- Every parameter identifier value is a valid byte. -/
lemma param_value_is_byte (p : PwnZeroParam) : is_byte p.value = true := by
  cases p <;> decide

/-- Every face value is a valid byte. -/
lemma face_value_is_byte (f : PwnFace) : is_byte f.value = true := by
  cases f <;> decide

/-- Every mode value is a valid byte. -/
lemma mode_value_is_byte (m : PwnMode) : is_byte m.value = true := by
  cases m <;> decide

/-- When the param byte is valid, `send_data` agrees with the variant
that skips the param check. -/
lemma send_data_eq_uncheckedParam (conn : Serial) (p : Int) (args : List Int)
    (hp : is_byte p = true) :
    send_data conn p args = send_data_uncheckedParam conn p args := by
  simp [send_data, send_data_uncheckedParam, hp]

/-- On a transport whose write always returns a count, `send_data` with a
valid param byte returns the conjunction of payload validity and
count-equals-length, never raising. -/
lemma send_data_ok_result (conn : Serial) (cnt : List Int → Nat)
    (hc : conn.reportFn = fun d => Except.ok (cnt d)) (p : Int) (args : List Int)
    (hp : is_byte p = true) :
    callResult (send_data conn p args) =
      some ((args.all fun i => is_byte i) &&
        (cnt (frameData p args) == (frameData p args).length)) := by
  by_cases ha : (args.all fun i => is_byte i) = true
  · simp [send_data, hp, ha, Serial.write, hc, callResult]
  · simp [send_data, hp, ha, callResult]

/-- On a transport whose write always returns a count, `send_data` with a
valid param byte and valid payload appends exactly one frame to the log. -/
lemma send_data_ok_log (conn : Serial) (cnt : List Int → Nat)
    (hc : conn.reportFn = fun d => Except.ok (cnt d)) (p : Int) (args : List Int)
    (hp : is_byte p = true) (ha : (args.all fun i => is_byte i) = true) :
    callLog (send_data conn p args) =
      some (conn.writtenLog ++ [frameData p args]) := by
  simp [send_data, hp, ha, Serial.write, hc, callLog]

/-- On a count-returning transport, `send_data` on a single valid payload
byte succeeds exactly when the reported count is 4. -/
lemma send_data_single_result (conn : Serial) (cnt : List Int → Nat)
    (hc : conn.reportFn = fun d => Except.ok (cnt d)) (p v : Int)
    (hp : is_byte p = true) (hv : is_byte v = true) :
    callResult (send_data conn p [v]) = some (cnt (frameData p [v]) == 4) := by
  have h := send_data_ok_result conn cnt hc p [v] hp
  have hl : (frameData p [v]).length = 4 := by simp [frameData]
  rw [hl] at h
  simpa [hv] using h

/-- On a count-returning transport, `send_data` on a string payload
succeeds exactly when all payload bytes are valid and the reported count
is the payload length plus 3. -/
lemma send_data_string_result (conn : Serial) (cnt : List Int → Nat)
    (hc : conn.reportFn = fun d => Except.ok (cnt d)) (p : Int)
    (hp : is_byte p = true) (s : String) :
    callResult (send_data conn p (str_to_bytes s)) =
      some (((str_to_bytes s).all fun i => is_byte i) &&
        (cnt (frameData p (str_to_bytes s)) == (str_to_bytes s).length + 3)) := by
  have h := send_data_ok_result conn cnt hc p (str_to_bytes s) hp
  rwa [frameData_length] at h

/-- On a transport reporting strictly fewer bytes than requested,
`send_data` with a valid param byte always returns `False`. -/
lemma send_data_short_false (conn : Serial) (cnt : List Int → Nat)
    (hc : conn.reportFn = fun d => Except.ok (cnt d)) (p : Int)
    (hp : is_byte p = true) (args : List Int)
    (hlt : ∀ d, cnt d < d.length) :
    callResult (send_data conn p args) = some false := by
  rw [send_data_ok_result conn cnt hc p args hp, frameData_length]
  have hl := hlt (frameData p args)
  rw [frameData_length] at hl
  cases hall : (args.all fun i => is_byte i) <;> simp [hall]
  omega

/-- On a transport whose write returns a count, `send_data` always
returns a boolean rather than raising. -/
lemma send_data_returns_bool (conn : Serial)
    (h : ∀ d, ∃ n, conn.reportFn d = Except.ok n) (p : Int) (args : List Int) :
    ∃ b, callResult (send_data conn p args) = some b := by
  by_cases hp : is_byte p = true
  · by_cases hall : (args.all fun i => is_byte i) = true
    · obtain ⟨n, hn⟩ := h (frameData p args)
      exact ⟨n == (frameData p args).length,
        by simp [send_data, hp, hall, Serial.write, hn, callResult]⟩
    · exact ⟨false, by simp [send_data, hp, hall, callResult]⟩
  · exact ⟨false, by simp [send_data, hp, callResult]⟩

/-! ## Claim theorems -/

/-- C5: the enumerated wire constants match the fixed contract exactly:
FACE=4, NAME=5, CHANNEL=6, APS=7, UPTIME=8, FRIEND=9, MODE=10,
HANDSHAKES=11, MESSAGE=12; MANUAL=4, AUTO=5, AI=6; and the face values
cover 4 through 30 inclusive, one per named display state. -/
theorem wire_constants_exact :
    PwnZeroParam.FACE.value = 4 ∧ PwnZeroParam.NAME.value = 5 ∧
    PwnZeroParam.CHANNEL.value = 6 ∧ PwnZeroParam.APS.value = 7 ∧
    PwnZeroParam.UPTIME.value = 8 ∧ PwnZeroParam.FRIEND.value = 9 ∧
    PwnZeroParam.MODE.value = 10 ∧ PwnZeroParam.HANDSHAKES.value = 11 ∧
    PwnZeroParam.MESSAGE.value = 12 ∧
    PwnMode.MANU.value = 4 ∧ PwnMode.AUTO.value = 5 ∧ PwnMode.AI.value = 6 ∧
    (∀ n : Int, (∃ f : PwnFace, f.value = n) ↔ 4 ≤ n ∧ n ≤ 30) ∧
    (∀ f g : PwnFace, f.value = g.value → f = g) := by
  refine ⟨rfl, rfl, rfl, rfl, rfl, rfl, rfl, rfl, rfl, rfl, rfl, rfl, ?_, by decide⟩
  intro n
  constructor
  · rintro ⟨f, rfl⟩
    cases f <;> simp [PwnFace.value]
  · rintro ⟨h1, h2⟩
    interval_cases n <;> decide

/-- C6: for every integer `i`, the byte validity predicate holds exactly
when `0 ≤ i < 256`; it is a pure total Lean function. -/
theorem is_byte_iff (i : Int) : is_byte i = true ↔ 0 ≤ i ∧ i < 256 := by
  simp [is_byte]

/-- C7: `str_to_bytes` maps every string to the list of code points of
its characters in order; in particular it sends `"AB"` to `[65, 66]` and
`""` to `[]`. -/
theorem str_to_bytes_spec :
    (∀ s : String, str_to_bytes s = s.data.map fun c => Int.ofNat c.toNat) ∧
    str_to_bytes "AB" = [65, 66] ∧ str_to_bytes "" = [] := by
  refine ⟨fun s => ?_, rfl, rfl⟩
  simpa using foldl_append_singleton s.data []

/-- C8: `set_friend` always returns `False` and leaves the connection
untouched: no frame is encoded and nothing is written. -/
theorem set_friend_always_false (conn : Serial) :
    set_friend conn = .ok (false, conn) := rfl

/-- C1: for a valid param byte and all-valid payload, on a transport whose
write returns a count, `send_data` writes exactly the frame
`[0x02, param] ++ payload ++ [0x03]`: its length is `payload.length + 3`,
its first byte is `0x02`, its second byte is `param`, its last byte is
`0x03`, and the middle slice is `payload` unchanged. -/
theorem send_data_frame_exact (conn : Serial) (param : Int) (payload : List Int) (n : Nat)
    (hp : is_byte param = true)
    (ha : (payload.all fun i => is_byte i) = true)
    (hw : conn.reportFn (frameData param payload) = .ok n) :
    (∃ b conn2, send_data conn param payload = .ok (b, conn2) ∧
      conn2.writtenLog = conn.writtenLog ++ [frameData param payload]) ∧
    frameData param payload = [0x02, param] ++ payload ++ [0x03] ∧
    (frameData param payload).length = payload.length + 3 ∧
    (frameData param payload).head? = some 0x02 ∧
    (frameData param payload)[1]? = some param ∧
    (frameData param payload).getLast? = some 0x03 ∧
    ((frameData param payload).drop 2).dropLast = payload := by
  refine ⟨⟨n == (frameData param payload).length,
      { conn with writtenLog := conn.writtenLog ++ [frameData param payload] }, ?_, rfl⟩,
    rfl, frameData_length param payload, rfl, ?_, ?_, ?_⟩
  · simp [send_data, hp, ha, Serial.write, hw]
  · simp [frameData]
  · have h3 : frameData param payload = ([PROTOCOL_START, param] ++ payload) ++ [PROTOCOL_END] := by
      simp [frameData]
    rw [h3, List.getLast?_concat]
    rfl
  · have h4 : (frameData param payload).drop 2 = payload ++ [PROTOCOL_END] := by
      simp [frameData]
    rw [h4, List.dropLast_concat]

/-- C1 witness: the frame facts at `param = 4`, `payload = [65]`, on a
transport reporting the full length. -/
theorem send_data_frame_exact_witness :
    ∃ b conn2,
      send_data (Serial.mk (fun d => Except.ok d.length) []) 4 [65] = .ok (b, conn2) ∧
      conn2.writtenLog = [] ++ [frameData 4 [65]] :=
  (send_data_frame_exact (Serial.mk (fun d => Except.ok d.length) []) 4 [65] 4
    (by decide) (by decide) rfl).1

/-- C3: if the param byte or any payload element is out of byte range,
`send_data` returns `False` and the connection state is unchanged:
nothing is written and subsequent operations see the same connection. -/
theorem send_data_invalid_byte (conn : Serial) (param : Int) (args : List Int)
    (h : is_byte param = false ∨ (args.all fun i => is_byte i) = false) :
    send_data conn param args = .ok (false, conn) := by
  rcases h with h | h
  · simp [send_data, h]
  · by_cases hp : is_byte param = true <;> simp [send_data, hp, h]

/-- C3 witness: `param = 300` is rejected with the connection unchanged. -/
theorem send_data_invalid_byte_witness :
    send_data (Serial.mk (fun d => Except.ok d.length) []) 300 [65] =
      .ok (false, Serial.mk (fun d => Except.ok d.length) []) :=
  send_data_invalid_byte (Serial.mk (fun d => Except.ok d.length) []) 300 [65]
    (Or.inl (by decide))

/-- C2: on a transport whose write reports a count `cnt`, every public
set operation returns `True` exactly when the frame was validly encoded
and the reported count equals the frame length; in particular, when the
transport reports fewer bytes than requested every operation returns
`False`, and when it reports exactly the requested count, `set_mode AUTO`
returns `True` and transmits exactly `[0x02, 10, 5, 0x03]`. -/
theorem set_ops_success_iff (conn : Serial) (cnt : List Int → Nat)
    (hc : conn.reportFn = fun d => Except.ok (cnt d))
    (f : PwnFace) (m : PwnMode) (s : String) :
    (callResult (set_face conn f) = some true ↔ cnt (frameData 4 [f.value]) = 4) ∧
    (callResult (set_mode conn m) = some true ↔ cnt (frameData 10 [m.value]) = 4) ∧
    (callResult (set_name conn s) = some true ↔
      ((str_to_bytes s).all fun i => is_byte i) = true ∧
        cnt (frameData 5 (str_to_bytes s)) = (str_to_bytes s).length + 3) ∧
    (callResult (set_channel conn s) = some true ↔
      ((str_to_bytes s).all fun i => is_byte i) = true ∧
        cnt (frameData 6 (str_to_bytes s)) = (str_to_bytes s).length + 3) ∧
    (callResult (set_aps conn s) = some true ↔
      ((str_to_bytes s).all fun i => is_byte i) = true ∧
        cnt (frameData 7 (str_to_bytes s)) = (str_to_bytes s).length + 3) ∧
    (callResult (set_uptime conn s) = some true ↔
      ((str_to_bytes s).all fun i => is_byte i) = true ∧
        cnt (frameData 8 (str_to_bytes s)) = (str_to_bytes s).length + 3) ∧
    (callResult (set_handshakes conn s) = some true ↔
      ((str_to_bytes s).all fun i => is_byte i) = true ∧
        cnt (frameData 11 (str_to_bytes s)) = (str_to_bytes s).length + 3) ∧
    (callResult (set_message conn s) = some true ↔
      ((str_to_bytes s).all fun i => is_byte i) = true ∧
        cnt (frameData 12 (str_to_bytes s)) = (str_to_bytes s).length + 3) ∧
    callResult (set_friend conn) = some false ∧
    callLog (set_mode conn PwnMode.AUTO) = some (conn.writtenLog ++ [[2, 10, 5, 3]]) ∧
    ((∀ d, cnt d < d.length) →
      callResult (set_face conn f) = some false ∧
      callResult (set_mode conn m) = some false ∧
      callResult (set_name conn s) = some false ∧
      callResult (set_channel conn s) = some false ∧
      callResult (set_aps conn s) = some false ∧
      callResult (set_uptime conn s) = some false ∧
      callResult (set_handshakes conn s) = some false ∧
      callResult (set_message conn s) = some false ∧
      callResult (set_friend conn) = some false) ∧
    ((∀ d, cnt d = d.length) →
      callResult (set_mode conn PwnMode.AUTO) = some true) := by
  simp only [set_face, set_mode, set_name, set_channel, set_aps, set_uptime,
    set_handshakes, set_message, PwnZeroParam.value]
  have hface := send_data_single_result conn cnt hc 4 f.value (by decide) (face_value_is_byte f)
  have hmode := send_data_single_result conn cnt hc 10 m.value (by decide) (mode_value_is_byte m)
  have hauto := send_data_single_result conn cnt hc 10 PwnMode.AUTO.value (by decide) (by decide)
  refine ⟨?_, ?_, ?_, ?_, ?_, ?_, ?_, ?_, rfl, ?_, ?_, ?_⟩
  · rw [hface]; simp
  · rw [hmode]; simp
  · rw [send_data_string_result conn cnt hc 5 (by decide) s]; simp
  · rw [send_data_string_result conn cnt hc 6 (by decide) s]; simp
  · rw [send_data_string_result conn cnt hc 7 (by decide) s]; simp
  · rw [send_data_string_result conn cnt hc 8 (by decide) s]; simp
  · rw [send_data_string_result conn cnt hc 11 (by decide) s]; simp
  · rw [send_data_string_result conn cnt hc 12 (by decide) s]; simp
  · have hlog := send_data_ok_log conn cnt hc 10 [PwnMode.AUTO.value] (by decide) (by decide)
    simpa [frameData, PROTOCOL_START, PROTOCOL_END] using hlog
  · intro hlt
    exact ⟨send_data_short_false conn cnt hc 4 (by decide) _ hlt,
      send_data_short_false conn cnt hc 10 (by decide) _ hlt,
      send_data_short_false conn cnt hc 5 (by decide) _ hlt,
      send_data_short_false conn cnt hc 6 (by decide) _ hlt,
      send_data_short_false conn cnt hc 7 (by decide) _ hlt,
      send_data_short_false conn cnt hc 8 (by decide) _ hlt,
      send_data_short_false conn cnt hc 11 (by decide) _ hlt,
      send_data_short_false conn cnt hc 12 (by decide) _ hlt, rfl⟩
  · intro hexact
    rw [hauto]
    have h4 := hexact (frameData 10 [PwnMode.AUTO.value])
    rw [frameData_length] at h4
    simp [h4]

/-- C2 witness: on the exact-count stub, `set_mode AUTO` returns `True`
and the recorded bytes are exactly `[0x02, 10, 5, 0x03]`. -/
theorem set_ops_success_iff_witness :
    callResult (set_mode (Serial.mk (fun d => Except.ok d.length) []) PwnMode.AUTO) = some true ∧
    callLog (set_mode (Serial.mk (fun d => Except.ok d.length) []) PwnMode.AUTO) =
      some ([] ++ [[2, 10, 5, 3]]) := by
  have h := set_ops_success_iff (Serial.mk (fun d => Except.ok d.length) [])
    (fun d => d.length) rfl PwnFace.NO_FACE PwnMode.AUTO "A"
  exact ⟨h.2.2.2.2.2.2.2.2.2.2.2 (fun d => rfl), h.2.2.2.2.2.2.2.2.2.1⟩

/-- C4 counterexample: when the underlying write raises (write after
close), `set_mode` does not return a boolean — the error propagates
uncaught, because `_send_data` wraps the write in no exception handler. -/
theorem set_mode_raises_after_close :
    callResult (set_mode (Serial.mk (fun _ => Except.error SerialError.portNotOpen) [])
      PwnMode.AUTO) = none ∧
    set_mode (Serial.mk (fun _ => Except.error SerialError.portNotOpen) []) PwnMode.AUTO =
      Except.error SerialError.portNotOpen := by
  constructor <;>
    simp [set_mode, send_data, Serial.write, callResult, PwnZeroParam.value,
      PwnMode.value, is_byte]

/-- C4 (amended): every public set operation returns a boolean for every
input whenever the transport write itself returns a count rather than
raising; an exception raised by the write (I/O failure, write after
close) propagates to the caller instead of becoming a boolean. -/
theorem set_ops_return_bool (conn : Serial)
    (h : ∀ d, ∃ n, conn.reportFn d = Except.ok n)
    (f : PwnFace) (m : PwnMode) (s : String) :
    (∃ b, callResult (set_face conn f) = some b) ∧
    (∃ b, callResult (set_name conn s) = some b) ∧
    (∃ b, callResult (set_channel conn s) = some b) ∧
    (∃ b, callResult (set_aps conn s) = some b) ∧
    (∃ b, callResult (set_uptime conn s) = some b) ∧
    (∃ b, callResult (set_friend conn) = some b) ∧
    (∃ b, callResult (set_mode conn m) = some b) ∧
    (∃ b, callResult (set_handshakes conn s) = some b) ∧
    (∃ b, callResult (set_message conn s) = some b) :=
  ⟨send_data_returns_bool conn h _ _, send_data_returns_bool conn h _ _,
    send_data_returns_bool conn h _ _, send_data_returns_bool conn h _ _,
    send_data_returns_bool conn h _ _, ⟨false, rfl⟩,
    send_data_returns_bool conn h _ _, send_data_returns_bool conn h _ _,
    send_data_returns_bool conn h _ _⟩

/-- C4 witness: on a transport that always reports zero bytes written,
`set_face` still returns a boolean. -/
theorem set_ops_return_bool_witness :
    ∃ b, callResult (set_face (Serial.mk (fun _ => Except.ok 0) []) PwnFace.HAPPY) = some b :=
  (set_ops_return_bool (Serial.mk (fun _ => Except.ok 0) [])
    (fun _ => ⟨0, rfl⟩) PwnFace.HAPPY PwnMode.AI "x").1

/-- C9: when the serial device cannot be opened, construction fails with
the runtime error wrapping the underlying message, with no retry, and no
plugin instance is produced. -/
theorem init_connect_error (openSerial : String → Int → Except String Serial)
    (port : String) (baud : Int) (e : String)
    (h : openSerial port baud = Except.error e) :
    pwnZero_init openSerial port baud =
      Except.error (InitError.runtimeError
        ("Cannot bind to port " ++ port ++ " with baud " ++ toString baud ++ ": " ++ e)) := by
  simp [pwnZero_init, h]

/-- C9 witness: constructing on a nonexistent port propagates the wrapped
error. -/
theorem init_connect_error_witness :
    pwnZero_init (fun _ _ => Except.error "No such file or directory") "/dev/ttyUSB9" 115200 =
      Except.error (InitError.runtimeError
        ("Cannot bind to port " ++ "/dev/ttyUSB9" ++ " with baud " ++ toString (115200 : Int)
          ++ ": " ++ "No such file or directory")) :=
  init_connect_error (fun _ _ => Except.error "No such file or directory")
    "/dev/ttyUSB9" 115200 "No such file or directory" rfl

/-- C10: every public set operation passes a fixed enum parameter value in
4..12, each a valid byte, so the param validity check in `_send_data`
never fails from the public API: each operation behaves identically to the
variant with the param check removed. -/
theorem param_check_unreachable :
    (∀ p : PwnZeroParam, is_byte p.value = true ∧ 4 ≤ p.value ∧ p.value ≤ 12) ∧
    (∀ (conn : Serial) (f : PwnFace), set_face conn f =
      send_data_uncheckedParam conn PwnZeroParam.FACE.value [f.value]) ∧
    (∀ (conn : Serial) (s : String), set_name conn s =
      send_data_uncheckedParam conn PwnZeroParam.NAME.value (str_to_bytes s)) ∧
    (∀ (conn : Serial) (s : String), set_channel conn s =
      send_data_uncheckedParam conn PwnZeroParam.CHANNEL.value (str_to_bytes s)) ∧
    (∀ (conn : Serial) (s : String), set_aps conn s =
      send_data_uncheckedParam conn PwnZeroParam.APS.value (str_to_bytes s)) ∧
    (∀ (conn : Serial) (s : String), set_uptime conn s =
      send_data_uncheckedParam conn PwnZeroParam.UPTIME.value (str_to_bytes s)) ∧
    (∀ (conn : Serial) (m : PwnMode), set_mode conn m =
      send_data_uncheckedParam conn PwnZeroParam.MODE.value [m.value]) ∧
    (∀ (conn : Serial) (s : String), set_handshakes conn s =
      send_data_uncheckedParam conn PwnZeroParam.HANDSHAKES.value (str_to_bytes s)) ∧
    (∀ (conn : Serial) (s : String), set_message conn s =
      send_data_uncheckedParam conn PwnZeroParam.MESSAGE.value (str_to_bytes s)) :=
  ⟨by decide,
    fun conn f => send_data_eq_uncheckedParam conn _ _ (param_value_is_byte _),
    fun conn s => send_data_eq_uncheckedParam conn _ _ (param_value_is_byte _),
    fun conn s => send_data_eq_uncheckedParam conn _ _ (param_value_is_byte _),
    fun conn s => send_data_eq_uncheckedParam conn _ _ (param_value_is_byte _),
    fun conn s => send_data_eq_uncheckedParam conn _ _ (param_value_is_byte _),
    fun conn m => send_data_eq_uncheckedParam conn _ _ (param_value_is_byte _),
    fun conn s => send_data_eq_uncheckedParam conn _ _ (param_value_is_byte _),
    fun conn s => send_data_eq_uncheckedParam conn _ _ (param_value_is_byte _)⟩

end PwnZero
